import Mathlib

/-!
Shallow embedding of the valuation/scoring core of the `whatsitworth`
website-valuation tool (source: `src/services/analyzer.ts`).

JavaScript `number` arithmetic is idealized: the rational-only computations
(signal accumulation, category scores, valuation, confidence) are embedded
over `ℚ`/`ℤ`/`ℕ`, and the two transcendental visitor-count formulas
(`Math.pow(10, …)`, `Math.log10`) over `ℝ` with `Real.rpow`/`Real.logb`.
`Math.round x` is `⌊x + 1/2⌋` (round half toward positive infinity),
`Math.min`/`Math.max` are `min`/`max`.

Display-only data (signal label strings, the audit list of traffic signals,
unused record fields such as raw titles or nameservers) is omitted; every
field and constant that feeds a computation is carried over verbatim.
-/

/-- JavaScript `Math.round` on an exact rational: round half up. -/
def jsRoundQ (q : ℚ) : ℤ := ⌊q + 1/2⌋

/-- JavaScript `Math.round` on a real: round half up. -/
noncomputable def jsRound (x : ℝ) : ℤ := ⌊x + 1/2⌋

/-- JavaScript truthiness of a `string | null` value: `null` and `""` are falsy. -/
def strTruthy : Option String → Bool
  | none => false
  | some s => !(s = "")

-- ============================================
-- DATA MODEL (types/analysis.ts, realApis.ts)
-- ============================================

/-- Embeds `DomainAnalysis` (fields consumed by the scoring/valuation core). -/
structure DomainAnalysis where
  tld : String
  tldScore : ℚ
  length : ℕ
  hasNumbers : Bool
  hasHyphens : Bool
  isKeywordRich : Bool
  keywordsFound : List String
  ageYears : ℚ
  archiveSnapshots : ℕ
  hasSignificantHistory : Bool
deriving DecidableEq

/-- Embeds `PerformanceAnalysis` (the four Lighthouse scores used by the core). -/
structure PerformanceAnalysis where
  performanceScore : ℚ
  accessibilityScore : ℚ
  seoScore : ℚ
  bestPracticesScore : ℚ
deriving DecidableEq

/-- Embeds `TechnicalAnalysis`. -/
structure TechnicalAnalysis where
  hasHttps : Bool
  loadTime : ℚ
  hasMetaDescription : Bool
  hasMetaKeywords : Bool
  hasOpenGraph : Bool
  hasTwitterCard : Bool
  hasFavicon : Bool
  hasCanonical : Bool
  hasViewportMeta : Bool
  hasCharsetMeta : Bool
  hasLanguageAttr : Bool
deriving DecidableEq

/-- Embeds `DnsAnalysis` (passed to `calculateScores`, which does not read it). -/
structure DnsAnalysis where
  hasMxRecords : Bool
  hasSpfRecord : Bool
  hasDmarcRecord : Bool
deriving DecidableEq

/-- Embeds `SecurityAnalysis` (the externally computed security score). -/
structure SecurityAnalysis where
  securityScore : ℚ
deriving DecidableEq

/-- Embeds `SeoAnalysis` (fields consumed by the core). -/
structure SeoAnalysis where
  titleScore : ℚ
  descriptionScore : ℚ
  headingStructureScore : ℚ
  imageOptimizationScore : ℚ
  hasStructuredData : Bool
  hasSitemap : Bool
  hasRobotsTxt : Bool
  hasCanonical : Bool
  estimatedPageCount : ℕ
deriving DecidableEq

/-- Embeds `ContentAnalysis` (fields consumed by the core). -/
structure ContentAnalysis where
  wordCount : ℕ
  contentDepthScore : ℚ
  readabilityScore : ℚ
  hasContactInfo : Bool
  hasPrivacyPolicy : Bool
  hasTerms : Bool
  hasAboutPage : Bool
  uniqueContentIndicators : ℕ
deriving DecidableEq

/-- Embeds `SocialAnalysis` (fields consumed by the core). -/
structure SocialAnalysis where
  socialLinksCount : ℕ
  socialScore : ℚ
deriving DecidableEq

/-- Embeds `TechnologyAnalysis` (fields consumed by the core). -/
structure TechnologyAnalysis where
  hasGoogleAnalytics : Bool
  hasGoogleTagManager : Bool
  ecommerce : Option String
  cdn : Option String
deriving DecidableEq

/-- Embeds `TrancoRankResult` from `realApis.ts`. -/
structure TrancoRankResult where
  isRanked : Bool
  rank : Option ℕ
deriving DecidableEq

/-- Embeds `SocialFollowersData` (the core reads only `totalFollowers`). -/
structure SocialFollowersData where
  totalFollowers : ℕ
deriving DecidableEq

/-- The traffic-tier enumeration. -/
inductive TrafficTier where
  | veryLow | low | medium | high | veryHigh
deriving DecidableEq

/-- Embeds `TrafficEstimate` (the audit list of signal labels is omitted). -/
structure TrafficEstimate where
  estimatedMonthlyVisitors : ℤ
  trafficTier : TrafficTier
  confidenceLevel : ℕ
  estimatedPageviews : ℤ
  estimatedBounceRate : ℕ

/-- Revenue-model enumeration of `MonetizationAnalysis`. -/
inductive RevenueModel where
  | advertising | ecommerce | saas | leadGen | content | mixed | unknown
deriving DecidableEq

/-- The `estimatedMonthlyRevenue` sub-record. -/
structure RevenueEstimate where
  low : ℤ
  mid : ℤ
  high : ℤ
deriving DecidableEq

/-- Embeds `MonetizationAnalysis`. -/
structure MonetizationAnalysis where
  hasAds : Bool
  adNetworks : List String
  hasAffiliate : Bool
  hasEcommerce : Bool
  hasSubscription : Bool
  hasDonations : Bool
  hasLeadGen : Bool
  monetizationMethods : List String
  revenueModel : RevenueModel
  estimatedMonthlyRevenue : RevenueEstimate
deriving DecidableEq

/-- Embeds `ScoreBreakdown`: one rounded integer per category plus `overall`. -/
structure ScoreBreakdown where
  domain : ℤ
  performance : ℤ
  technical : ℤ
  security : ℤ
  seo : ℤ
  content : ℤ
  social : ℤ
  monetization : ℤ
  overall : ℤ
deriving DecidableEq

/-- Embeds `ValuationBreakdown`. -/
structure ValuationBreakdown where
  domainIntrinsicValue : ℤ
  trafficValue : ℤ
  contentValue : ℤ
  technicalValue : ℤ
  brandValue : ℤ
  revenueMultiple : ℤ
deriving DecidableEq

/-- The record returned by `calculateValuation` (value, range, breakdown, confidence). -/
structure ValuationResult where
  value : ℤ
  rangeMin : ℤ
  rangeMax : ℤ
  breakdown : ValuationBreakdown
  confidence : ℕ
deriving DecidableEq

/-- Recommendation impact levels, in the order used by the sort. -/
inductive ImpactLevel where
  | critical | high | medium | low
deriving DecidableEq

/-- Recommendation effort levels. -/
inductive EffortLevel where
  | easy | medium | hard
deriving DecidableEq

/-- Embeds `Recommendation`. -/
structure Recommendation where
  category : String
  title : String
  description : String
  impact : ImpactLevel
  effort : EffortLevel
  potentialValueIncrease : ℕ
deriving DecidableEq

-- ============================================
-- TRAFFIC ESTIMATION (estimateTraffic)
-- ============================================

/-- The argument bundle of `estimateTraffic`. -/
structure TrafficInput where
  domain : DomainAnalysis
  performance : Option PerformanceAnalysis
  seo : SeoAnalysis
  content : ContentAnalysis
  social : SocialAnalysis
  technology : TechnologyAnalysis
  trancoRank : Option TrancoRankResult
  socialFollowers : Option SocialFollowersData
deriving DecidableEq

/-- The guard `trancoRank?.isRanked && trancoRank.rank` of the ranked branch:
the rank is available when the result is present, flagged ranked, and the
rank number is truthy (non-null and non-zero). -/
def rankedRank : Option TrancoRankResult → Option ℕ
  | none => none
  | some t =>
    match t.rank with
    | none => none
    | some r => if t.isRanked = true ∧ r ≠ 0 then some r else none

/-- Truthiness of `trancoRank?.isRanked` (used by the confidence computation). -/
def isRankedFlag : Option TrancoRankResult → Bool
  | none => false
  | some t => t.isRanked

/-- Tranco bucket contribution to `trafficScore` (+150/+120/+100/+80/+50). -/
def rankScore (tr : Option TrancoRankResult) : ℚ :=
  match rankedRank tr with
  | none => 0
  | some r =>
    if r ≤ 100 then 150
    else if r ≤ 1000 then 120
    else if r ≤ 10000 then 100
    else if r ≤ 100000 then 80
    else 50

/-- Tranco bucket factor on `megaSiteMultiplier` (×100/×50/×20/×8/×3). -/
def rankMult (tr : Option TrancoRankResult) : ℚ :=
  match rankedRank tr with
  | none => 1
  | some r =>
    if r ≤ 100 then 100
    else if r ≤ 1000 then 50
    else if r ≤ 10000 then 20
    else if r ≤ 100000 then 8
    else 3

/-- Social-follower bucket contribution to `trafficScore`. -/
def followerScore (sf : Option SocialFollowersData) : ℚ :=
  match sf with
  | none => 0
  | some s =>
    if s.totalFollowers > 0 then
      if 10000000 ≤ s.totalFollowers then 60
      else if 1000000 ≤ s.totalFollowers then 45
      else if 100000 ≤ s.totalFollowers then 30
      else if 10000 ≤ s.totalFollowers then 20
      else if 1000 ≤ s.totalFollowers then 10
      else 0
    else 0

/-- Social-follower bucket factor on `megaSiteMultiplier`. -/
def followerMult (sf : Option SocialFollowersData) : ℚ :=
  match sf with
  | none => 1
  | some s =>
    if s.totalFollowers > 0 then
      if 10000000 ≤ s.totalFollowers then 5
      else if 1000000 ≤ s.totalFollowers then 3
      else if 100000 ≤ s.totalFollowers then 2
      else if 10000 ≤ s.totalFollowers then 1.5
      else 1
    else 1

/-- Domain-age tier contribution to `trafficScore` (+40/+30/+18/+10). -/
def ageScore (a : ℚ) : ℚ :=
  if 15 ≤ a then 40
  else if 10 ≤ a then 30
  else if 5 ≤ a then 18
  else if 2 ≤ a then 10
  else 0

/-- Domain-age tier factor on `megaSiteMultiplier` (×2.5/×1.5). -/
def ageMult (a : ℚ) : ℚ :=
  if 15 ≤ a then 2.5
  else if 10 ≤ a then 1.5
  else 1

/-- Archive-snapshot tier contribution to `trafficScore`. -/
def archiveScore (n : ℕ) : ℚ :=
  if 800 < n then 35
  else if 500 < n then 25
  else if 200 < n then 18
  else if 100 < n then 12
  else if 50 < n then 8
  else 0

/-- Archive-snapshot tier factor on `megaSiteMultiplier` (×3/×2/×1.3). -/
def archiveMult (n : ℕ) : ℚ :=
  if 800 < n then 3
  else if 500 < n then 2
  else if 200 < n then 1.3
  else 1

/-- Indexed-page-count tier contribution to `trafficScore` (+25/+18/+10). -/
def pagesScore (c : ℕ) : ℚ :=
  if 1000 < c then 25
  else if 100 < c then 18
  else if 20 < c then 10
  else 0

/-- Indexed-page-count tier factor on `megaSiteMultiplier` (×1.5 above 1000 pages). -/
def pagesMult (c : ℕ) : ℚ :=
  if 1000 < c then 1.5 else 1

/-- PageSpeed SEO-score contribution (`performance?.seoScore` truthiness guard). -/
def perfSeoScore (p : Option PerformanceAnalysis) : ℚ :=
  match p with
  | none => 0
  | some pf =>
    if pf.seoScore ≠ 0 ∧ 90 ≤ pf.seoScore then 18
    else if pf.seoScore ≠ 0 ∧ 70 ≤ pf.seoScore then 10
    else 0

/-- PageSpeed performance-score contribution (truthiness guard, +12 at 80). -/
def perfPerfScore (p : Option PerformanceAnalysis) : ℚ :=
  match p with
  | none => 0
  | some pf =>
    if pf.performanceScore ≠ 0 ∧ 80 ≤ pf.performanceScore then 12 else 0

/-- Content-depth contribution to `trafficScore` (+15/+10/+5). -/
def contentDepthContrib (wc : ℕ) : ℚ :=
  if 5000 ≤ wc then 15
  else if 2000 ≤ wc then 10
  else if 500 ≤ wc then 5
  else 0

/-- Social-platform-count contribution to `trafficScore` (+12/+6). -/
def socialPresenceContrib (n : ℕ) : ℚ :=
  if 5 ≤ n then 12
  else if 3 ≤ n then 6
  else 0

/-- Analytics-tracking contribution (+10). -/
def analyticsContrib (t : TechnologyAnalysis) : ℚ :=
  if t.hasGoogleAnalytics || t.hasGoogleTagManager then 10 else 0

/-- E-commerce-technology contribution (+12). -/
def ecommerceContrib (t : TechnologyAnalysis) : ℚ :=
  if strTruthy t.ecommerce then 12 else 0

/-- CDN contribution (+15). -/
def cdnContrib (t : TechnologyAnalysis) : ℚ :=
  if strTruthy t.cdn then 15 else 0

/-- CDN factor on `megaSiteMultiplier` (×1.2). -/
def cdnMult (t : TechnologyAnalysis) : ℚ :=
  if strTruthy t.cdn then 1.2 else 1

/-- Very-new-domain negative signal (−15 below one year). -/
def newDomainPenalty (a : ℚ) : ℚ :=
  if a < 1 then -15 else 0

/-- Missing-structured-data negative signal (−5). -/
def structuredDataPenalty (seo : SeoAnalysis) : ℚ :=
  if ¬seo.hasStructuredData then -5 else 0

/-- The accumulated dimensionless `trafficScore`, the sum of all signal
contributions in source order. -/
def trafficScore (i : TrafficInput) : ℚ :=
  rankScore i.trancoRank
    + followerScore i.socialFollowers
    + ageScore i.domain.ageYears
    + archiveScore i.domain.archiveSnapshots
    + pagesScore i.seo.estimatedPageCount
    + perfSeoScore i.performance
    + perfPerfScore i.performance
    + contentDepthContrib i.content.wordCount
    + socialPresenceContrib i.social.socialLinksCount
    + analyticsContrib i.technology
    + ecommerceContrib i.technology
    + cdnContrib i.technology
    + newDomainPenalty i.domain.ageYears
    + structuredDataPenalty i.seo

/-- The accumulated multiplicative `megaSiteMultiplier` (starts at 1). -/
def megaSiteMultiplier (i : TrafficInput) : ℚ :=
  rankMult i.trancoRank
    * followerMult i.socialFollowers
    * ageMult i.domain.ageYears
    * archiveMult i.domain.archiveSnapshots
    * pagesMult i.seo.estimatedPageCount
    * cdnMult i.technology

/-- Embeds `Math.max(0, Math.min(150, trafficScore))` of the unranked branch. -/
def normalizedTrafficScore (i : TrafficInput) : ℚ :=
  max 0 (min 150 (trafficScore i))

/-- The bounded quality multiplier of the ranked branch:
`Math.min(2, 1 + (megaSiteMultiplier - 1) * 0.1)`. -/
def qualityBoost (i : TrafficInput) : ℚ :=
  min 2 (1 + (megaSiteMultiplier i - 1) * 0.1)

/-- The exponential visitor curve of the unranked branch:
`100 * Math.pow(10, (score / 100) * 3.7)`. -/
noncomputable def baseVisitors (s : ℚ) : ℝ :=
  100 * (10 : ℝ) ^ ((s : ℝ) / 100 * 3.7)

/-- The log-linear visitor formula of the ranked branch:
`Math.pow(10, 8.5 - Math.log10(rank) * 0.9)`. -/
noncomputable def rankedBaseTraffic (r : ℕ) : ℝ :=
  (10 : ℝ) ^ ((8.5 : ℝ) - Real.logb 10 (r : ℝ) * 0.9)

/-- Embeds `estimatedMonthlyVisitors`: the two-branch visitor-count derivation. -/
noncomputable def estimatedMonthlyVisitors (i : TrafficInput) : ℤ :=
  match rankedRank i.trancoRank with
  | some r => jsRound (rankedBaseTraffic r * (qualityBoost i : ℝ))
  | none => jsRound (baseVisitors (normalizedTrafficScore i)
      * ((min 10 (megaSiteMultiplier i) : ℚ) : ℝ))

/-- The fixed visitor-count tier ladder. -/
def visitorTier (v : ℤ) : TrafficTier :=
  if 10000000 ≤ v then .veryHigh
  else if 1000000 ≤ v then .veryHigh
  else if 100000 ≤ v then .high
  else if 10000 ≤ v then .medium
  else if 1000 ≤ v then .low
  else .veryLow

/-- Truthiness of `socialFollowers && socialFollowers.totalFollowers > 1000`. -/
def followersOver1000 : Option SocialFollowersData → Bool
  | none => false
  | some s => 1000 < s.totalFollowers

/-- The confidence computation: base 35 plus fixed increments, capped at 95. -/
def confidenceLevel (i : TrafficInput) : ℕ :=
  min 95 (35
    + (if isRankedFlag i.trancoRank then 30 else 0)
    + (if i.domain.hasSignificantHistory then 15 else 0)
    + (if 100 < i.domain.archiveSnapshots then 5 else 0)
    + (if i.performance.isSome then 10 else 0)
    + (if 0 < i.seo.estimatedPageCount then 5 else 0)
    + (if followersOver1000 i.socialFollowers then 5 else 0))

/-- The fixed bounce-rate lookup by tier. -/
def bounceRateOf : TrafficTier → ℕ
  | .veryHigh => 35
  | .high => 45
  | .medium => 50
  | .low => 60
  | .veryLow => 55

/-- Embeds `estimateTraffic`: assembles the full traffic estimate. -/
noncomputable def estimateTraffic (i : TrafficInput) : TrafficEstimate :=
  let v := estimatedMonthlyVisitors i
  { estimatedMonthlyVisitors := v
    trafficTier := visitorTier v
    confidenceLevel := confidenceLevel i
    estimatedPageviews := jsRoundQ ((v : ℚ) * 2.5)
    estimatedBounceRate := bounceRateOf (visitorTier v) }

-- ============================================
-- SCORE CALCULATION (calculateScores)
-- ============================================

/-- Embeds `Math.round(Math.min(100, s))`: the clamp applied to every returned field. -/
def clampRound (q : ℚ) : ℤ := jsRoundQ (min 100 q)

/-- Raw (pre-clamp, pre-round) domain category score. -/
def domainScoreRaw (d : DomainAnalysis) : ℚ :=
  d.tldScore * 0.3
    + (if d.length ≤ 6 then 25
       else if d.length ≤ 10 then 20
       else if d.length ≤ 15 then 10
       else 0)
    + (if ¬d.hasNumbers then 10 else 0)
    + (if ¬d.hasHyphens then 10 else 0)
    + (if d.isKeywordRich then 15 else 0)
    + (if 5 ≤ d.ageYears then 10
       else if 2 ≤ d.ageYears then 5
       else 0)

/-- Raw performance category score: neutral 50 without data, else the
rounded weighted blend of the four Lighthouse sub-scores. -/
def performanceScoreRaw (p : Option PerformanceAnalysis) : ℚ :=
  match p with
  | none => 50
  | some pf =>
    (jsRoundQ (pf.performanceScore * 0.4 + pf.accessibilityScore * 0.2
      + pf.seoScore * 0.25 + pf.bestPracticesScore * 0.15) : ℚ)

/-- Raw technical category score: additive checklist. -/
def technicalScoreRaw (t : TechnicalAnalysis) : ℚ :=
  (if t.hasHttps then 20 else 0)
    + (if t.hasMetaDescription then 10 else 0)
    + (if t.hasOpenGraph then 10 else 0)
    + (if t.hasTwitterCard then 5 else 0)
    + (if t.hasFavicon then 5 else 0)
    + (if t.hasCanonical then 10 else 0)
    + (if t.hasViewportMeta then 10 else 0)
    + (if t.hasCharsetMeta then 5 else 0)
    + (if t.hasLanguageAttr then 5 else 0)
    + (if t.loadTime < 2000 then 20
       else if t.loadTime < 4000 then 10
       else 0)

/-- Raw SEO category score: weighted blend plus flat bonuses. -/
def seoScoreRaw (seo : SeoAnalysis) : ℚ :=
  seo.titleScore * 0.2
    + seo.descriptionScore * 0.15
    + seo.headingStructureScore * 0.15
    + seo.imageOptimizationScore * 0.1
    + (if seo.hasStructuredData then 15 else 0)
    + (if seo.hasSitemap then 10 else 0)
    + (if seo.hasRobotsTxt then 5 else 0)
    + (if seo.hasCanonical then 10 else 0)

/-- Raw content category score: weighted blend plus flat bonuses. -/
def contentScoreRaw (c : ContentAnalysis) : ℚ :=
  c.contentDepthScore * 0.4
    + c.readabilityScore * 0.2
    + (if c.hasContactInfo then 10 else 0)
    + (if c.hasPrivacyPolicy then 10 else 0)
    + (if c.hasTerms then 5 else 0)
    + (if c.hasAboutPage then 5 else 0)
    + (c.uniqueContentIndicators : ℚ) * 5

/-- Raw monetization category score, clamped to 100 during accumulation. -/
def monetizationScoreRaw (m : MonetizationAnalysis) : ℚ :=
  min 100 ((m.monetizationMethods.length : ℚ) * 15
    + (if m.hasEcommerce then 20 else 0)
    + (if m.hasSubscription then 15 else 0))

/-- The rounded weighted overall score, computed from the raw category scores
before any per-category rounding or clamping. -/
def overallRaw (d : DomainAnalysis) (p : Option PerformanceAnalysis)
    (t : TechnicalAnalysis) (sec : SecurityAnalysis) (seo : SeoAnalysis)
    (c : ContentAnalysis) (soc : SocialAnalysis) (m : MonetizationAnalysis) : ℤ :=
  jsRoundQ (domainScoreRaw d * 0.15
    + performanceScoreRaw p * 0.15
    + technicalScoreRaw t * 0.10
    + sec.securityScore * 0.10
    + seoScoreRaw seo * 0.20
    + contentScoreRaw c * 0.15
    + soc.socialScore * 0.05
    + monetizationScoreRaw m * 0.10)

/-- Embeds `calculateScores`: every returned field is `Math.round(Math.min(100, raw))`.
The `dns` argument is accepted and ignored, as in the source. -/
def calculateScores (d : DomainAnalysis) (p : Option PerformanceAnalysis)
    (t : TechnicalAnalysis) (_dns : DnsAnalysis) (sec : SecurityAnalysis)
    (seo : SeoAnalysis) (c : ContentAnalysis) (soc : SocialAnalysis)
    (m : MonetizationAnalysis) : ScoreBreakdown :=
  { domain := clampRound (domainScoreRaw d)
    performance := clampRound (performanceScoreRaw p)
    technical := clampRound (technicalScoreRaw t)
    security := clampRound sec.securityScore
    seo := clampRound (seoScoreRaw seo)
    content := clampRound (contentScoreRaw c)
    social := clampRound soc.socialScore
    monetization := clampRound (monetizationScoreRaw m)
    overall := clampRound ((overallRaw d p t sec seo c soc m : ℚ)) }

-- ============================================
-- VALUATION (TLD_VALUES, KEYWORD_VALUES, INDUSTRY_CPMS, calculateValuation)
-- ============================================

/-- An entry of the `TLD_VALUES` table. -/
structure TldData where
  score : ℚ
  baseValue : ℚ
deriving DecidableEq

/-- The `TLD_VALUES` table. -/
def TLD_VALUES : List (String × TldData) :=
  [(".com", ⟨100, 2000⟩), (".org", ⟨85, 1200⟩), (".net", ⟨80, 1000⟩),
   (".io", ⟨78, 1500⟩), (".co", ⟨72, 800⟩), (".ai", ⟨82, 2500⟩),
   (".app", ⟨70, 600⟩), (".dev", ⟨70, 600⟩), (".tech", ⟨60, 400⟩),
   (".me", ⟨55, 300⟩), (".info", ⟨40, 150⟩), (".biz", ⟨35, 100⟩),
   (".xyz", ⟨30, 50⟩)]

/-- Embeds `TLD_VALUES[tld] || { score: 30, baseValue: 50 }`. -/
def tldData (tld : String) : TldData :=
  (TLD_VALUES.lookup tld).getD ⟨30, 50⟩

/-- The `KEYWORD_VALUES` table (keyword dollar values). -/
def KEYWORD_VALUES : List (String × ℚ) :=
  [("finance", 5000), ("bank", 8000), ("loan", 6000), ("credit", 5000),
   ("invest", 7000), ("money", 4000), ("pay", 3000), ("cash", 3000),
   ("wealth", 4000), ("crypto", 5000),
   ("tech", 3000), ("software", 4000), ("app", 2500), ("cloud", 4000),
   ("ai", 5000), ("data", 3500), ("code", 2000), ("dev", 2000),
   ("digital", 2500), ("cyber", 3000),
   ("shop", 3500), ("store", 3000), ("buy", 3000), ("sell", 2500),
   ("market", 3000), ("deal", 2000), ("price", 2000), ("sale", 2000),
   ("trade", 3000), ("auction", 2500),
   ("health", 4000), ("medical", 5000), ("doctor", 4000), ("care", 3000),
   ("fitness", 2500), ("diet", 2000), ("wellness", 2500), ("pharma", 5000),
   ("dental", 3000), ("therapy", 3000),
   ("travel", 3500), ("hotel", 4000), ("flight", 3500), ("tour", 2500),
   ("vacation", 3000), ("trip", 2000), ("booking", 3000), ("resort", 3500),
   ("cruise", 3000),
   ("home", 3500), ("house", 3000), ("real", 2000), ("estate", 4000),
   ("property", 3500), ("rent", 2500), ("apartment", 2500), ("condo", 2000),
   ("land", 2500),
   ("law", 5000), ("legal", 4500), ("attorney", 5000), ("lawyer", 5000),
   ("court", 3000),
   ("insurance", 6000), ("insure", 4000), ("policy", 3000), ("coverage", 3000),
   ("learn", 2000), ("edu", 2500), ("course", 2000), ("school", 2500),
   ("university", 3000), ("training", 2000), ("tutor", 2000), ("academy", 2000),
   ("best", 2000), ("top", 1500), ("pro", 1500), ("expert", 2000),
   ("premium", 2000), ("online", 1500), ("free", 1500), ("fast", 1000),
   ("easy", 1000), ("smart", 1500)]

/-- Embeds `KEYWORD_VALUES[keyword] || 500`. -/
def keywordValue (k : String) : ℚ :=
  (KEYWORD_VALUES.lookup k).getD 500

/-- The `INDUSTRY_CPMS` table. -/
def INDUSTRY_CPMS : List (String × ℚ) :=
  [("finance", 15.0), ("insurance", 18.0), ("legal", 12.0), ("health", 8.0),
   ("technology", 5.0), ("ecommerce", 4.0), ("travel", 6.0), ("education", 4.0),
   ("entertainment", 2.0), ("news", 2.5), ("general", 3.0)]

/-- Embeds `INDUSTRY_CPMS[industry] || INDUSTRY_CPMS.general` (the general rate is 3.0). -/
def industryCpm (industry : String) : ℚ :=
  (INDUSTRY_CPMS.lookup industry).getD 3.0

/-- Domain intrinsic value: TLD base value scaled by length tier, plus keyword
values, times the age premium, times the digit/hyphen penalties. -/
def domainIntrinsicValue (d : DomainAnalysis) : ℚ :=
  let base := (tldData d.tld).baseValue
  let base :=
    if d.length ≤ 3 then base * 10
    else if d.length ≤ 5 then base * 5
    else if d.length ≤ 8 then base * 2
    else if d.length ≤ 12 then base * 1.2
    else if 15 < d.length then base * 0.5
    else base
  let keywordTotal := (d.keywordsFound.map keywordValue).sum
  let v := (base + keywordTotal) * (1 + d.ageYears * 0.05)
  let v := if d.hasNumbers then v * 0.7 else v
  if d.hasHyphens then v * 0.6 else v

/-- The estimated monthly revenue accumulated over the detected channels
(ads, e-commerce, affiliate, subscription). -/
def monthlyRevenueEstimate (traffic : TrafficEstimate) (m : MonetizationAnalysis)
    (cpm : ℚ) : ℚ :=
  (if m.hasAds then ((traffic.estimatedMonthlyVisitors : ℚ) / 1000) * cpm else 0)
    + (if m.hasEcommerce then (traffic.estimatedMonthlyVisitors : ℚ) * 0.02 * 50 else 0)
    + (if m.hasAffiliate then (traffic.estimatedMonthlyVisitors : ℚ) * 0.005 * 5 else 0)
    + (if m.hasSubscription then (traffic.estimatedMonthlyVisitors : ℚ) * 0.001 * 20 else 0)

/-- Embeds `calculateValuation`. The source mutates `monetization.estimatedMonthlyRevenue`
in place when a revenue model is known; the embedding passes that state
explicitly, returning the post-call monetization record as the second component. -/
def calculateValuation (d : DomainAnalysis) (traffic : TrafficEstimate)
    (m : MonetizationAnalysis) (scores : ScoreBreakdown) (industry : String) :
    ValuationResult × MonetizationAnalysis :=
  let div := domainIntrinsicValue d
  let cpm := industryCpm industry
  let monthlyTrafficValue := ((traffic.estimatedMonthlyVisitors : ℚ) / 1000) * cpm
  let trafficValue := monthlyTrafficValue * 12 * 2
  let contentValue := ((scores.content : ℚ) / 100) * 5000
  let technicalValue := (((scores.technical : ℚ) + (scores.performance : ℚ)) / 200) * 3000
  let brandValue := ((scores.social : ℚ) / 100) * 2000
    + (if d.hasSignificantHistory then 2000 else 0)
  let rev := monthlyRevenueEstimate traffic m cpm
  let revenueMultiple : ℚ := if m.revenueModel = .unknown then 0 else rev * 30
  let m' :=
    if m.revenueModel = .unknown then m
    else { m with estimatedMonthlyRevenue :=
      ⟨jsRoundQ (rev * 0.5), jsRoundQ rev, jsRoundQ (rev * 2)⟩ }
  let baseValue := div + trafficValue + contentValue + technicalValue
    + brandValue + revenueMultiple
  let qualityMultiplier := 0.5 + (scores.overall : ℚ) / 100
  let estimatedValue := jsRoundQ (baseValue * qualityMultiplier)
  let confidenceFactor := (traffic.confidenceLevel : ℚ) / 100
  let rangeSpread := 0.5 - confidenceFactor * 0.3
  ({ value := estimatedValue
     rangeMin := jsRoundQ ((estimatedValue : ℚ) * (1 - rangeSpread))
     rangeMax := jsRoundQ ((estimatedValue : ℚ) * (1 + rangeSpread))
     breakdown :=
       { domainIntrinsicValue := jsRoundQ div
         trafficValue := jsRoundQ trafficValue
         contentValue := jsRoundQ contentValue
         technicalValue := jsRoundQ technicalValue
         brandValue := jsRoundQ brandValue
         revenueMultiple := jsRoundQ revenueMultiple }
     confidence := traffic.confidenceLevel }, m')

-- ============================================
-- CONTENT EXTRACTION (analyzeContentComprehensive, word/sentence math)
-- ============================================

/-- JavaScript regex-class whitespace (the characters relevant to page text). -/
def isJsWhitespace (c : Char) : Bool :=
  c = ' ' || c = '\t' || c = '\n' || c = '\r'

/-- Sentence-delimiter characters of the split `/[.!?]+/`. -/
def isSentenceDelim (c : Char) : Bool :=
  c = '.' || c = '!' || c = '?'

/-- Fueled worker for `splitRuns`; the fuel strictly exceeds the number of
delimiter runs, so the `0` fallback is never reached from `splitRuns`. -/
def splitRunsAux (p : Char → Bool) : ℕ → List Char → List (List Char)
  | 0, l => [l]
  | fuel + 1, l =>
    let first := l.takeWhile (fun c => !(p c))
    match l.dropWhile (fun c => !(p c)) with
    | [] => [first]
    | _ :: t => first :: splitRunsAux p fuel (t.dropWhile p)

/-- Embeds `String.prototype.split` on a one-character-class regex with `+`:
splits on maximal runs of delimiter characters, keeping empty leading and
trailing pieces, exactly as JavaScript does. -/
def splitRuns (p : Char → Bool) (l : List Char) : List (List Char) :=
  splitRunsAux p l.length l

/-- Embeds `String.prototype.trim`: strip whitespace from both ends. -/
def jsTrim (s : List Char) : List Char :=
  ((s.dropWhile isJsWhitespace).reverse.dropWhile isJsWhitespace).reverse

/-- Embeds `textContent.split(/\s+/).filter(word => word.length > 2)`: the word list
used for content-depth counting (the text is the body text after the
script/style/noscript/nav/header/footer removal done by the DOM collaborator). -/
def contentWords (text : List Char) : List (List Char) :=
  (splitRuns isJsWhitespace text).filter (fun w => 2 < w.length)

/-- Embeds `wordCount`: the length of the filtered word list. -/
def wordCount (text : List Char) : ℕ :=
  (contentWords text).length

/-- Embeds `textContent.split(/[.!?]+/).filter(s => s.trim().length > 10)`. -/
def contentSentences (text : List Char) : List (List Char) :=
  (splitRuns isSentenceDelim text).filter (fun s => 10 < (jsTrim s).length)

/-- Embeds `avgWordsPerSentence = sentences.length > 0 ? words.length / sentences.length : 0`. -/
def avgWordsPerSentence (text : List Char) : ℚ :=
  if 0 < (contentSentences text).length then
    (wordCount text : ℚ) / ((contentSentences text).length : ℚ)
  else 0

/-- Embeds `readabilityScore = Math.max(0, Math.min(100, 100 - (avg - 15) * 3))`. -/
def readabilityScoreOf (text : List Char) : ℚ :=
  max 0 (min 100 (100 - (avgWordsPerSentence text - 15) * 3))

/-- Modelled from the spec: the sentence-ratio numerator the specification
describes, namely ALL whitespace-delimited tokens (every nonempty token,
with no length filter), for comparison against the implementation. -/
def specAllTokens (text : List Char) : List (List Char) :=
  (splitRuns isJsWhitespace text).filter (fun w => 0 < w.length)

/-- Modelled from the spec: the average words per sentence the specification
describes, using all whitespace tokens rather than the length-filtered list. -/
def specAvgWordsPerSentence (text : List Char) : ℚ :=
  if 0 < (contentSentences text).length then
    ((specAllTokens text).length : ℚ) / ((contentSentences text).length : ℚ)
  else 0

-- ============================================
-- RECOMMENDATIONS ENGINE (generateRecommendations)
-- ============================================

/-- The rule list of `generateRecommendations`, in source order: each rule is
an independent predicate over the facts that either emits one recommendation
or nothing. Dynamic interpolation inside one description string is dropped. -/
def recommendationRules (performance : Option PerformanceAnalysis)
    (technical : TechnicalAnalysis) (seo : SeoAnalysis) (content : ContentAnalysis)
    (social : SocialAnalysis) (monetization : MonetizationAnalysis) :
    List Recommendation :=
  (if ¬technical.hasHttps then
    [{ category := "Security", title := "Enable HTTPS",
       description := "HTTPS is essential for security, SEO rankings, and user trust. This is critical.",
       impact := .critical, effort := .easy, potentialValueIncrease := 2000 }]
   else [])
  ++ (match performance with
      | some pf =>
        if pf.performanceScore < 50 then
          [{ category := "Performance", title := "Improve page speed",
             description := "Your performance score is low. Aim for 80+. Optimize images, enable caching, minimize JavaScript.",
             impact := .high, effort := .medium, potentialValueIncrease := 3000 }]
        else []
      | none => [])
  ++ (if ¬seo.hasStructuredData then
    [{ category := "SEO", title := "Add structured data",
       description := "Schema.org markup helps search engines understand your content and can enable rich snippets.",
       impact := .high, effort := .medium, potentialValueIncrease := 1500 }]
   else [])
  ++ (if seo.titleScore < 75 then
    [{ category := "SEO", title := "Optimize page title",
       description := "Your title should be 30-60 characters and include your primary keyword.",
       impact := .high, effort := .easy, potentialValueIncrease := 1000 }]
   else [])
  ++ (if seo.descriptionScore < 75 then
    [{ category := "SEO", title := "Optimize meta description",
       description := "Write a compelling 120-160 character description to improve click-through rates.",
       impact := .high, effort := .easy, potentialValueIncrease := 800 }]
   else [])
  ++ (if ¬seo.hasSitemap then
    [{ category := "SEO", title := "Create XML sitemap",
       description := "A sitemap helps search engines discover and index all your pages.",
       impact := .medium, effort := .easy, potentialValueIncrease := 500 }]
   else [])
  ++ (if content.wordCount < 500 then
    [{ category := "Content", title := "Add more content",
       description := "Pages with more substantial content (1000+ words) tend to rank better.",
       impact := .medium, effort := .hard, potentialValueIncrease := 1500 }]
   else [])
  ++ (if ¬content.hasPrivacyPolicy then
    [{ category := "Trust", title := "Add privacy policy",
       description := "A privacy policy is legally required in many jurisdictions and builds trust.",
       impact := .medium, effort := .easy, potentialValueIncrease := 300 }]
   else [])
  ++ (if social.socialLinksCount < 3 then
    [{ category := "Social", title := "Expand social presence",
       description := "Active social media profiles increase brand visibility and trust signals.",
       impact := .medium, effort := .medium, potentialValueIncrease := 500 }]
   else [])
  ++ (if monetization.monetizationMethods.length = 0 then
    [{ category := "Monetization", title := "Add monetization",
       description := "Consider ads, affiliate links, or e-commerce to generate revenue.",
       impact := .medium, effort := .medium, potentialValueIncrease := 2000 }]
   else [])
  ++ (if ¬technical.hasOpenGraph then
    [{ category := "Social", title := "Add Open Graph tags",
       description := "OG tags improve how your site appears when shared on social media.",
       impact := .low, effort := .easy, potentialValueIncrease := 200 }]
   else [])
  ++ (if ¬technical.hasFavicon then
    [{ category := "Branding", title := "Add favicon",
       description := "A favicon makes your site look more professional in browser tabs.",
       impact := .low, effort := .easy, potentialValueIncrease := 100 }]
   else [])

/-- Embeds `impactOrder = { critical: 0, high: 1, medium: 2, low: 3 }`. -/
def impactOrder : ImpactLevel → ℕ
  | .critical => 0
  | .high => 1
  | .medium => 2
  | .low => 3

/-- The total preorder realized by the sort comparator: primary key impact
rank ascending, secondary key potential value increase descending. -/
def recBefore (a b : Recommendation) : Prop :=
  impactOrder a.impact < impactOrder b.impact
    ∨ (impactOrder a.impact = impactOrder b.impact
        ∧ b.potentialValueIncrease ≤ a.potentialValueIncrease)

instance : DecidableRel recBefore := fun a b => by
  unfold recBefore; infer_instance

instance : IsTotal Recommendation recBefore where
  total a b := by
    unfold recBefore
    rcases lt_trichotomy (impactOrder a.impact) (impactOrder b.impact) with h | h | h
    · exact Or.inl (Or.inl h)
    · rcases le_total b.potentialValueIncrease a.potentialValueIncrease with h2 | h2
      · exact Or.inl (Or.inr ⟨h, h2⟩)
      · exact Or.inr (Or.inr ⟨h.symm, h2⟩)
    · exact Or.inr (Or.inl h)

instance : IsTrans Recommendation recBefore where
  trans a b c hab hbc := by
    unfold recBefore at *
    rcases hab with h1 | ⟨h1, h1v⟩ <;> rcases hbc with h2 | ⟨h2, h2v⟩
    · exact Or.inl (h1.trans h2)
    · exact Or.inl (h2 ▸ h1)
    · exact Or.inl (h1 ▸ h2)
    · exact Or.inr ⟨h1.trans h2, h2v.trans h1v⟩

/-- Embeds `generateRecommendations`: build the rule list, sort it by the comparator
(`Array.prototype.sort` guarantees an ordering consistent with the comparator),
and truncate to the top ten. The unused `domain` and `security` arguments of
the source signature are accepted and ignored. -/
def generateRecommendations (_domain : DomainAnalysis)
    (performance : Option PerformanceAnalysis) (technical : TechnicalAnalysis)
    (_security : SecurityAnalysis) (seo : SeoAnalysis) (content : ContentAnalysis)
    (social : SocialAnalysis) (monetization : MonetizationAnalysis) :
    List Recommendation :=
  ((recommendationRules performance technical seo content social monetization).insertionSort
    recBefore).take 10

-- ============================================
-- HELPER LEMMAS
-- ============================================

lemma one_le_mulQ {a b : ℚ} (ha : 1 ≤ a) (hb : 1 ≤ b) : 1 ≤ a * b := by nlinarith

lemma jsRoundQ_intCast (k : ℤ) : jsRoundQ (k : ℚ) = k := by
  unfold jsRoundQ
  rw [Int.floor_int_add]
  norm_num

lemma jsRoundQ_nonneg {q : ℚ} (h : 0 ≤ q) : 0 ≤ jsRoundQ q :=
  Int.floor_nonneg.mpr (by linarith)

lemma jsRoundQ_mono {q r : ℚ} (h : q ≤ r) : jsRoundQ q ≤ jsRoundQ r :=
  Int.floor_le_floor (by linarith)

lemma clampRound_le_100 (q : ℚ) : clampRound q ≤ 100 := by
  unfold clampRound jsRoundQ
  have h : (⌊min 100 q + 1/2⌋ : ℤ) < 101 := by
    apply Int.floor_lt.mpr
    have := min_le_left (100 : ℚ) q
    push_cast
    linarith
  omega

lemma clampRound_nonneg {q : ℚ} (h : 0 ≤ q) : 0 ≤ clampRound q := by
  unfold clampRound
  apply jsRoundQ_nonneg
  exact le_min (by norm_num) h

lemma clampRound_mono {q r : ℚ} (h : q ≤ r) : clampRound q ≤ clampRound r :=
  jsRoundQ_mono (min_le_min le_rfl h)

lemma clampRound_intCast (k : ℤ) : clampRound (k : ℚ) = min 100 k := by
  unfold clampRound
  have h : (min 100 (k : ℚ)) = ((min 100 k : ℤ) : ℚ) := by
    push_cast
    rfl
  rw [h, jsRoundQ_intCast]

/-- If `b ^ q < a ^ p` then `b < a ^ (p / q)` (all quantities nonnegative). -/
lemma lt_rpow_ratio_of_pow_lt {a b : ℝ} {p q : ℕ} (ha : 1 ≤ a)
    (hq : 0 < q) (h : b ^ q < a ^ p) : b < a ^ ((p : ℝ) / (q : ℝ)) := by
  by_contra hle
  push_neg at hle
  have ha0 : (0 : ℝ) ≤ a := le_trans zero_le_one ha
  have hqne : ((q : ℝ)) ≠ 0 := by positivity
  have key : (a ^ ((p : ℝ) / (q : ℝ))) ^ q = a ^ p := by
    rw [← Real.rpow_natCast (a ^ ((p : ℝ) / (q : ℝ))) q, ← Real.rpow_mul ha0,
      div_mul_cancel₀ _ hqne, Real.rpow_natCast]
  have : a ^ p ≤ b ^ q := by
    rw [← key]
    exact pow_le_pow_left₀ (Real.rpow_nonneg ha0 _) hle q
  linarith

/-- If `a ^ p < b ^ q` then `a ^ (p / q) < b` (all quantities nonnegative). -/
lemma rpow_ratio_lt_of_pow_lt {a b : ℝ} {p q : ℕ} (ha : 1 ≤ a) (hb : 0 ≤ b)
    (hq : 0 < q) (h : a ^ p < b ^ q) : a ^ ((p : ℝ) / (q : ℝ)) < b := by
  by_contra hle
  push_neg at hle
  have ha0 : (0 : ℝ) ≤ a := le_trans zero_le_one ha
  have hqne : ((q : ℝ)) ≠ 0 := by positivity
  have key : (a ^ ((p : ℝ) / (q : ℝ))) ^ q = a ^ p := by
    rw [← Real.rpow_natCast (a ^ ((p : ℝ) / (q : ℝ))) q, ← Real.rpow_mul ha0,
      div_mul_cancel₀ _ hqne, Real.rpow_natCast]
  have : b ^ q ≤ a ^ p := by
    rw [← key]
    exact pow_le_pow_left₀ hb hle q
  linarith

/-- If `b ^ q ≤ a ^ p` then `b ≤ a ^ (p / q)` (all quantities nonnegative). -/
lemma le_rpow_ratio_of_pow_le {a b : ℝ} {p q : ℕ} (ha : 1 ≤ a)
    (hq : 0 < q) (h : b ^ q ≤ a ^ p) : b ≤ a ^ ((p : ℝ) / (q : ℝ)) := by
  by_contra hlt
  push_neg at hlt
  have ha0 : (0 : ℝ) ≤ a := le_trans zero_le_one ha
  have hqne : ((q : ℝ)) ≠ 0 := by positivity
  have key : (a ^ ((p : ℝ) / (q : ℝ))) ^ q = a ^ p := by
    rw [← Real.rpow_natCast (a ^ ((p : ℝ) / (q : ℝ))) q, ← Real.rpow_mul ha0,
      div_mul_cancel₀ _ hqne, Real.rpow_natCast]
  have : a ^ p < b ^ q := by
    rw [← key]
    exact pow_lt_pow_left₀ hlt (Real.rpow_nonneg ha0 _) (by omega)
  linarith

-- ============================================
-- CLAIM C7: traffic confidence formula and bound
-- ============================================

/-- Claim C7: for every input the traffic confidence equals 35 plus the fixed
increments (+30 rank known, +15 significant history, +5 many archive
snapshots, +10 performance data, +5 indexed pages known, +5 meaningful
follower count) capped at 95, hence always lies in [0,95] and never
reaches 100. -/
theorem traffic_C7_confidence (i : TrafficInput) :
    (estimateTraffic i).confidenceLevel
        = min 95 (35
          + (if isRankedFlag i.trancoRank then 30 else 0)
          + (if i.domain.hasSignificantHistory then 15 else 0)
          + (if 100 < i.domain.archiveSnapshots then 5 else 0)
          + (if i.performance.isSome then 10 else 0)
          + (if 0 < i.seo.estimatedPageCount then 5 else 0)
          + (if followersOver1000 i.socialFollowers then 5 else 0))
      ∧ (estimateTraffic i).confidenceLevel ≤ 95
      ∧ (estimateTraffic i).confidenceLevel < 100 := by
  have hle : (estimateTraffic i).confidenceLevel ≤ 95 := min_le_left 95 _
  exact ⟨rfl, hle, lt_of_le_of_lt hle (by norm_num)⟩

-- ============================================
-- CLAIM C8: recommendation list capped at 10 and sorted
-- ============================================

/-- Claim C8: for every input, `generateRecommendations` returns at most ten
recommendations, sorted with primary key impact rank ascending
(critical, high, medium, low) and secondary key potential value increase
descending. -/
theorem recs_C8_sorted_capped (d : DomainAnalysis) (p : Option PerformanceAnalysis)
    (t : TechnicalAnalysis) (sec : SecurityAnalysis) (seo : SeoAnalysis)
    (c : ContentAnalysis) (soc : SocialAnalysis) (m : MonetizationAnalysis) :
    (generateRecommendations d p t sec seo c soc m).length ≤ 10
      ∧ List.Sorted recBefore (generateRecommendations d p t sec seo c soc m) := by
  constructor
  · rw [generateRecommendations, List.length_take]
    exact min_le_left _ _
  · exact (List.sorted_insertionSort recBefore
      (recommendationRules p t seo c soc m)).sublist (List.take_sublist 10 _)

-- ============================================
-- CLAIM C3: the overall score combination
-- ============================================

/-- Modelled from the spec and claim wording: `overall` recomputed as the
convex combination of the eight returned (already rounded and clamped)
category fields of a `ScoreBreakdown`, rounded to nearest and clamped
to [0,100]. Used to compare the claim against the implementation. -/
def specOverallFromBreakdown (s : ScoreBreakdown) : ℤ :=
  max 0 (min 100 (jsRoundQ ((s.domain : ℚ) * 0.15 + (s.performance : ℚ) * 0.15
    + (s.technical : ℚ) * 0.10 + (s.security : ℚ) * 0.10 + (s.seo : ℚ) * 0.20
    + (s.content : ℚ) * 0.15 + (s.social : ℚ) * 0.05 + (s.monetization : ℚ) * 0.10)))

def cx3d : DomainAnalysis :=
  { tld := ".zz", tldScore := 0, length := 20, hasNumbers := true,
    hasHyphens := true, isKeywordRich := false, keywordsFound := [],
    ageYears := 0, archiveSnapshots := 0, hasSignificantHistory := false }

def cx3t : TechnicalAnalysis :=
  { hasHttps := false, loadTime := 5000, hasMetaDescription := false,
    hasMetaKeywords := false, hasOpenGraph := false, hasTwitterCard := false,
    hasFavicon := false, hasCanonical := false, hasViewportMeta := false,
    hasCharsetMeta := false, hasLanguageAttr := false }

def cx3dns : DnsAnalysis :=
  { hasMxRecords := false, hasSpfRecord := false, hasDmarcRecord := false }

def cx3sec : SecurityAnalysis := { securityScore := 0 }

def cx3seo : SeoAnalysis :=
  { titleScore := 0, descriptionScore := 0, headingStructureScore := 0,
    imageOptimizationScore := 0, hasStructuredData := false, hasSitemap := false,
    hasRobotsTxt := false, hasCanonical := false, estimatedPageCount := 0 }

def cx3c : ContentAnalysis :=
  { wordCount := 2500, contentDepthScore := 100, readabilityScore := 100,
    hasContactInfo := true, hasPrivacyPolicy := true, hasTerms := true,
    hasAboutPage := true, uniqueContentIndicators := 6 }

def cx3soc : SocialAnalysis := { socialLinksCount := 0, socialScore := 0 }

def cx3m : MonetizationAnalysis :=
  { hasAds := false, adNetworks := [], hasAffiliate := false, hasEcommerce := false,
    hasSubscription := false, hasDonations := false, hasLeadGen := false,
    monetizationMethods := [], revenueModel := .content,
    estimatedMonthlyRevenue := ⟨0, 0, 0⟩ }

/-- Claim C3 is false as stated: on a concrete input whose raw content score
is 120 (clamped to 100 in the returned field), the implementation rounds the
combination of the raw scores (26), not the combination of the returned
rounded-and-clamped fields (23). -/
theorem scores_C3_counterexample :
    (calculateScores cx3d none cx3t cx3dns cx3sec cx3seo cx3c cx3soc cx3m).content = 100
      ∧ contentScoreRaw cx3c = 120
      ∧ (calculateScores cx3d none cx3t cx3dns cx3sec cx3seo cx3c cx3soc cx3m).overall = 26
      ∧ specOverallFromBreakdown
          (calculateScores cx3d none cx3t cx3dns cx3sec cx3seo cx3c cx3soc cx3m) = 23 := by
  have hs : calculateScores cx3d none cx3t cx3dns cx3sec cx3seo cx3c cx3soc cx3m
      = { domain := 0, performance := 50, technical := 0, security := 0, seo := 0,
          content := 100, social := 0, monetization := 0, overall := 26 } := by
    unfold calculateScores overallRaw
    norm_num [clampRound, jsRoundQ, domainScoreRaw, performanceScoreRaw,
      technicalScoreRaw, seoScoreRaw, contentScoreRaw, monetizationScoreRaw,
      cx3d, cx3t, cx3sec, cx3seo, cx3c, cx3soc, cx3m, Int.floor_eq_iff]
  refine ⟨by rw [hs], ?_, by rw [hs], ?_⟩
  · norm_num [contentScoreRaw, cx3c]
  · rw [hs]
    norm_num [specOverallFromBreakdown, jsRoundQ, Int.floor_eq_iff]

/-- Claim C3 (amended): `overall` equals the convex combination (weights
domain .15, performance .15, technical .10, security .10, seo .20,
content .15, social .05, monetization .10) of the eight RAW category scores,
taken before per-category rounding and clamping, rounded to nearest integer
and clamped above to 100. -/
theorem scores_C3_overall (d : DomainAnalysis) (p : Option PerformanceAnalysis)
    (t : TechnicalAnalysis) (dns : DnsAnalysis) (sec : SecurityAnalysis)
    (seo : SeoAnalysis) (c : ContentAnalysis) (soc : SocialAnalysis)
    (m : MonetizationAnalysis) :
    (calculateScores d p t dns sec seo c soc m).overall
      = min 100 (jsRoundQ (domainScoreRaw d * 0.15
          + performanceScoreRaw p * 0.15
          + technicalScoreRaw t * 0.10
          + sec.securityScore * 0.10
          + seoScoreRaw seo * 0.20
          + contentScoreRaw c * 0.15
          + soc.socialScore * 0.05
          + monetizationScoreRaw m * 0.10)) := by
  exact clampRound_intCast (overallRaw d p t sec seo c soc m)

-- ============================================
-- CLAIM C10: unknown revenue model leaves monetization untouched
-- ============================================

/-- Claim C10: with `revenueModel = unknown`, `calculateValuation` leaves the
monetization record entirely unchanged (its revenue estimate staying at the
initial 0/0/0) and reports a zero `revenueMultiple` component. -/
theorem valuation_C10_unknown_noop (d : DomainAnalysis) (traffic : TrafficEstimate)
    (m : MonetizationAnalysis) (scores : ScoreBreakdown) (industry : String)
    (hm : m.revenueModel = .unknown)
    (h0 : m.estimatedMonthlyRevenue = ⟨0, 0, 0⟩) :
    (calculateValuation d traffic m scores industry).2 = m
      ∧ (calculateValuation d traffic m scores industry).2.estimatedMonthlyRevenue
          = ⟨0, 0, 0⟩
      ∧ (calculateValuation d traffic m scores industry).1.breakdown.revenueMultiple = 0 := by
  unfold calculateValuation
  rw [hm]
  norm_num [jsRoundQ, Int.floor_eq_iff, h0]

def cx10traffic : TrafficEstimate :=
  { estimatedMonthlyVisitors := 50000, trafficTier := .medium,
    confidenceLevel := 60, estimatedPageviews := 125000, estimatedBounceRate := 50 }

def cx10d : DomainAnalysis :=
  { tld := ".com", tldScore := 100, length := 7, hasNumbers := false,
    hasHyphens := false, isKeywordRich := false, keywordsFound := [],
    ageYears := 3, archiveSnapshots := 40, hasSignificantHistory := false }

def cx10m : MonetizationAnalysis :=
  { hasAds := false, adNetworks := [], hasAffiliate := true, hasEcommerce := false,
    hasSubscription := false, hasDonations := false, hasLeadGen := false,
    monetizationMethods := ["Affiliate Marketing"], revenueModel := .unknown,
    estimatedMonthlyRevenue := ⟨0, 0, 0⟩ }

def cx10scores : ScoreBreakdown :=
  { domain := 70, performance := 50, technical := 40, security := 50, seo := 30,
    content := 40, social := 20, monetization := 25, overall := 45 }

/-- Witness for C10 at a concrete input: an affiliate-only page whose revenue
model remained `unknown`. -/
theorem valuation_C10_unknown_noop_witness :
    cx10m.revenueModel = .unknown
      ∧ cx10m.estimatedMonthlyRevenue = ⟨0, 0, 0⟩
      ∧ ((calculateValuation cx10d cx10traffic cx10m cx10scores "general").2 = cx10m
          ∧ (calculateValuation cx10d cx10traffic cx10m cx10scores "general").2.estimatedMonthlyRevenue
              = ⟨0, 0, 0⟩
          ∧ (calculateValuation cx10d cx10traffic cx10m cx10scores "general").1.breakdown.revenueMultiple
              = 0) :=
  ⟨rfl, rfl, valuation_C10_unknown_noop cx10d cx10traffic cx10m cx10scores "general" rfl rfl⟩

-- ============================================
-- CLAIM C2: the revenue estimate write-back
-- ============================================

def cx2d : DomainAnalysis :=
  { tld := ".com", tldScore := 100, length := 8, hasNumbers := false,
    hasHyphens := false, isKeywordRich := false, keywordsFound := [],
    ageYears := 4, archiveSnapshots := 120, hasSignificantHistory := true }

def cx2traffic : TrafficEstimate :=
  { estimatedMonthlyVisitors := 1000000, trafficTier := .veryHigh,
    confidenceLevel := 80, estimatedPageviews := 2500000, estimatedBounceRate := 35 }

def cx2m : MonetizationAnalysis :=
  { hasAds := true, adNetworks := ["Google AdSense"], hasAffiliate := false,
    hasEcommerce := false, hasSubscription := false, hasDonations := false,
    hasLeadGen := false, monetizationMethods := ["Advertising"],
    revenueModel := .advertising, estimatedMonthlyRevenue := ⟨0, 0, 0⟩ }

def cx2scores : ScoreBreakdown :=
  { domain := 80, performance := 70, technical := 60, security := 70, seo := 65,
    content := 55, social := 40, monetization := 30, overall := 63 }

/-- Claim C2 is false as stated: `calculateValuation` does update the
monetization record (modelled here as the explicitly returned post-call
record differing from the input record) whenever a revenue model is known.
On this advertising site the revenue estimate is rewritten from 0/0/0 to
1500/3000/6000. -/
theorem valuation_C2_counterexample :
    (calculateValuation cx2d cx2traffic cx2m cx2scores "general").2 ≠ cx2m
      ∧ (calculateValuation cx2d cx2traffic cx2m cx2scores "general").2.estimatedMonthlyRevenue
          = ⟨1500, 3000, 6000⟩ := by
  have hcpm : industryCpm "general" = 3 := by
    simp [industryCpm, INDUSTRY_CPMS, List.lookup]
    norm_num
  have hrev : monthlyRevenueEstimate cx2traffic cx2m (industryCpm "general") = 3000 := by
    rw [hcpm]
    norm_num [monthlyRevenueEstimate, cx2m, cx2traffic]
  have hv : (calculateValuation cx2d cx2traffic cx2m cx2scores "general").2
      = { cx2m with estimatedMonthlyRevenue := ⟨1500, 3000, 6000⟩ } := by
    show (if cx2m.revenueModel = RevenueModel.unknown then cx2m
      else { cx2m with estimatedMonthlyRevenue :=
        ⟨jsRoundQ (monthlyRevenueEstimate cx2traffic cx2m (industryCpm "general") * 0.5),
         jsRoundQ (monthlyRevenueEstimate cx2traffic cx2m (industryCpm "general")),
         jsRoundQ (monthlyRevenueEstimate cx2traffic cx2m (industryCpm "general") * 2)⟩ }) = _
    rw [if_neg (by decide : ¬(cx2m.revenueModel = RevenueModel.unknown)), hrev]
    norm_num [jsRoundQ, Int.floor_eq_iff]
  rw [hv]
  refine ⟨?_, rfl⟩
  intro h
  have := congrArg (fun x => x.estimatedMonthlyRevenue.mid) h
  simp [cx2m] at this

/-- Claim C2 (amended): `calculateValuation` surfaces the per-channel monthly
revenue estimate (low = 50%, mid = 100%, high = 200% of the computed figure)
by writing it back into the monetization record whenever the revenue model
is known — the one explicitly noted place where an upstream record changes
after construction, modelled as an explicit two-stage return: the returned
record equals the input record with exactly the `estimatedMonthlyRevenue`
field replaced. -/
theorem valuation_C2_writeback (d : DomainAnalysis) (traffic : TrafficEstimate)
    (m : MonetizationAnalysis) (scores : ScoreBreakdown) (industry : String)
    (hm : m.revenueModel ≠ .unknown) :
    (calculateValuation d traffic m scores industry).2
      = { m with estimatedMonthlyRevenue :=
          ⟨jsRoundQ (monthlyRevenueEstimate traffic m (industryCpm industry) * 0.5),
           jsRoundQ (monthlyRevenueEstimate traffic m (industryCpm industry)),
           jsRoundQ (monthlyRevenueEstimate traffic m (industryCpm industry) * 2)⟩ } := by
  unfold calculateValuation
  simp [hm]

/-- Witness for the amended C2 at the concrete advertising site. -/
theorem valuation_C2_writeback_witness :
    cx2m.revenueModel ≠ .unknown
      ∧ (calculateValuation cx2d cx2traffic cx2m cx2scores "general").2
          = { cx2m with estimatedMonthlyRevenue :=
              ⟨jsRoundQ (monthlyRevenueEstimate cx2traffic cx2m (industryCpm "general") * 0.5),
               jsRoundQ (monthlyRevenueEstimate cx2traffic cx2m (industryCpm "general")),
               jsRoundQ (monthlyRevenueEstimate cx2traffic cx2m (industryCpm "general") * 2)⟩ } :=
  ⟨by simp [cx2m], valuation_C2_writeback cx2d cx2traffic cx2m cx2scores "general" (by simp [cx2m])⟩

-- ============================================
-- CLAIM C6: every ScoreBreakdown field lies in [0,100]
-- ============================================

lemma domainScoreRaw_nonneg {d : DomainAnalysis} (h : 0 ≤ d.tldScore) :
    0 ≤ domainScoreRaw d := by
  unfold domainScoreRaw
  have h0 : 0 ≤ d.tldScore * 0.3 := by positivity
  split_ifs <;> linarith

lemma performanceScoreRaw_nonneg {p : Option PerformanceAnalysis}
    (h : ∀ pf, p = some pf → 0 ≤ pf.performanceScore ∧ 0 ≤ pf.accessibilityScore
      ∧ 0 ≤ pf.seoScore ∧ 0 ≤ pf.bestPracticesScore) :
    0 ≤ performanceScoreRaw p := by
  cases hp : p with
  | none => norm_num [performanceScoreRaw]
  | some pf =>
    obtain ⟨h1, h2, h3, h4⟩ := h pf hp
    show (0:ℚ) ≤ ((jsRoundQ (pf.performanceScore * 0.4 + pf.accessibilityScore * 0.2
        + pf.seoScore * 0.25 + pf.bestPracticesScore * 0.15) : ℤ) : ℚ)
    exact_mod_cast jsRoundQ_nonneg (by positivity)

lemma ite_zero_nonneg {c : Prop} [Decidable c] {a : ℚ} (ha : 0 ≤ a) :
    0 ≤ if c then a else 0 := by
  split_ifs with h
  · exact ha
  · exact le_refl 0

lemma technicalScoreRaw_nonneg (t : TechnicalAnalysis) : 0 ≤ technicalScoreRaw t := by
  unfold technicalScoreRaw
  have l1 : (0:ℚ) ≤ if t.hasHttps then 20 else 0 := ite_zero_nonneg (by norm_num)
  have l2 : (0:ℚ) ≤ if t.hasMetaDescription then 10 else 0 := ite_zero_nonneg (by norm_num)
  have l3 : (0:ℚ) ≤ if t.hasOpenGraph then 10 else 0 := ite_zero_nonneg (by norm_num)
  have l4 : (0:ℚ) ≤ if t.hasTwitterCard then 5 else 0 := ite_zero_nonneg (by norm_num)
  have l5 : (0:ℚ) ≤ if t.hasFavicon then 5 else 0 := ite_zero_nonneg (by norm_num)
  have l6 : (0:ℚ) ≤ if t.hasCanonical then 10 else 0 := ite_zero_nonneg (by norm_num)
  have l7 : (0:ℚ) ≤ if t.hasViewportMeta then 10 else 0 := ite_zero_nonneg (by norm_num)
  have l8 : (0:ℚ) ≤ if t.hasCharsetMeta then 5 else 0 := ite_zero_nonneg (by norm_num)
  have l9 : (0:ℚ) ≤ if t.hasLanguageAttr then 5 else 0 := ite_zero_nonneg (by norm_num)
  have l10 : (0:ℚ) ≤ if t.loadTime < 2000 then 20 else if t.loadTime < 4000 then 10 else 0 := by
    split_ifs <;> norm_num
  linarith

lemma seoScoreRaw_nonneg {seo : SeoAnalysis} (h1 : 0 ≤ seo.titleScore)
    (h2 : 0 ≤ seo.descriptionScore) (h3 : 0 ≤ seo.headingStructureScore)
    (h4 : 0 ≤ seo.imageOptimizationScore) : 0 ≤ seoScoreRaw seo := by
  unfold seoScoreRaw
  have b1 : 0 ≤ seo.titleScore * 0.2 := by positivity
  have b2 : 0 ≤ seo.descriptionScore * 0.15 := by positivity
  have b3 : 0 ≤ seo.headingStructureScore * 0.15 := by positivity
  have b4 : 0 ≤ seo.imageOptimizationScore * 0.1 := by positivity
  split_ifs <;> linarith

lemma contentScoreRaw_nonneg {c : ContentAnalysis} (h1 : 0 ≤ c.contentDepthScore)
    (h2 : 0 ≤ c.readabilityScore) : 0 ≤ contentScoreRaw c := by
  unfold contentScoreRaw
  have b1 : 0 ≤ c.contentDepthScore * 0.4 := by positivity
  have b2 : 0 ≤ c.readabilityScore * 0.2 := by positivity
  have b3 : (0:ℚ) ≤ (c.uniqueContentIndicators : ℚ) * 5 := by positivity
  split_ifs <;> linarith

lemma monetizationScoreRaw_nonneg (m : MonetizationAnalysis) :
    0 ≤ monetizationScoreRaw m := by
  unfold monetizationScoreRaw
  have b1 : (0:ℚ) ≤ (m.monetizationMethods.length : ℚ) * 15 := by positivity
  apply le_min (by norm_num)
  split_ifs <;> linarith

/-- The validity assumptions on the inputs of `calculateScores`: every
externally supplied sub-score is nonnegative (their upper bounds are not
needed, since every returned field is clamped above at 100). -/
def ValidScoreInputs (d : DomainAnalysis) (p : Option PerformanceAnalysis)
    (sec : SecurityAnalysis) (seo : SeoAnalysis) (c : ContentAnalysis)
    (soc : SocialAnalysis) : Prop :=
  0 ≤ d.tldScore
    ∧ (∀ pf, p = some pf → 0 ≤ pf.performanceScore ∧ 0 ≤ pf.accessibilityScore
        ∧ 0 ≤ pf.seoScore ∧ 0 ≤ pf.bestPracticesScore)
    ∧ 0 ≤ sec.securityScore
    ∧ 0 ≤ seo.titleScore ∧ 0 ≤ seo.descriptionScore
    ∧ 0 ≤ seo.headingStructureScore ∧ 0 ≤ seo.imageOptimizationScore
    ∧ 0 ≤ c.contentDepthScore ∧ 0 ≤ c.readabilityScore
    ∧ 0 ≤ soc.socialScore

/-- Claim C6: for all valid inputs, every field of the returned
`ScoreBreakdown` (the eight categories and `overall`) lies in [0,100]. -/
theorem scores_C6_bounded (d : DomainAnalysis) (p : Option PerformanceAnalysis)
    (t : TechnicalAnalysis) (dns : DnsAnalysis) (sec : SecurityAnalysis)
    (seo : SeoAnalysis) (c : ContentAnalysis) (soc : SocialAnalysis)
    (m : MonetizationAnalysis) (hv : ValidScoreInputs d p sec seo c soc) :
    let s := calculateScores d p t dns sec seo c soc m
    (0 ≤ s.domain ∧ s.domain ≤ 100)
      ∧ (0 ≤ s.performance ∧ s.performance ≤ 100)
      ∧ (0 ≤ s.technical ∧ s.technical ≤ 100)
      ∧ (0 ≤ s.security ∧ s.security ≤ 100)
      ∧ (0 ≤ s.seo ∧ s.seo ≤ 100)
      ∧ (0 ≤ s.content ∧ s.content ≤ 100)
      ∧ (0 ≤ s.social ∧ s.social ≤ 100)
      ∧ (0 ≤ s.monetization ∧ s.monetization ≤ 100)
      ∧ (0 ≤ s.overall ∧ s.overall ≤ 100) := by
  obtain ⟨htld, hp, hsec, ht1, ht2, ht3, ht4, hc1, hc2, hsoc⟩ := hv
  have hdom := domainScoreRaw_nonneg htld
  have hperf := performanceScoreRaw_nonneg hp
  have htech := technicalScoreRaw_nonneg t
  have hseo := seoScoreRaw_nonneg ht1 ht2 ht3 ht4
  have hcont := contentScoreRaw_nonneg hc1 hc2
  have hmon := monetizationScoreRaw_nonneg m
  have hover : (0:ℚ) ≤ (overallRaw d p t sec seo c soc m : ℚ) := by
    have : (0:ℤ) ≤ overallRaw d p t sec seo c soc m := by
      unfold overallRaw
      apply jsRoundQ_nonneg
      have w1 : 0 ≤ domainScoreRaw d * 0.15 := by positivity
      have w2 : 0 ≤ performanceScoreRaw p * 0.15 := by positivity
      have w3 : 0 ≤ technicalScoreRaw t * 0.10 := by positivity
      have w4 : 0 ≤ sec.securityScore * 0.10 := by positivity
      have w5 : 0 ≤ seoScoreRaw seo * 0.20 := by positivity
      have w6 : 0 ≤ contentScoreRaw c * 0.15 := by positivity
      have w7 : 0 ≤ soc.socialScore * 0.05 := by positivity
      have w8 : 0 ≤ monetizationScoreRaw m * 0.10 := by positivity
      linarith
    exact_mod_cast this
  exact ⟨⟨clampRound_nonneg hdom, clampRound_le_100 _⟩,
    ⟨clampRound_nonneg hperf, clampRound_le_100 _⟩,
    ⟨clampRound_nonneg htech, clampRound_le_100 _⟩,
    ⟨clampRound_nonneg hsec, clampRound_le_100 _⟩,
    ⟨clampRound_nonneg hseo, clampRound_le_100 _⟩,
    ⟨clampRound_nonneg hcont, clampRound_le_100 _⟩,
    ⟨clampRound_nonneg hsoc, clampRound_le_100 _⟩,
    ⟨clampRound_nonneg hmon, clampRound_le_100 _⟩,
    ⟨clampRound_nonneg hover, clampRound_le_100 _⟩⟩

def cx6d : DomainAnalysis :=
  { tld := ".com", tldScore := 100, length := 7, hasNumbers := false,
    hasHyphens := false, isKeywordRich := false, keywordsFound := [],
    ageYears := 6, archiveSnapshots := 80, hasSignificantHistory := true }

def cx6p : PerformanceAnalysis :=
  { performanceScore := 75, accessibilityScore := 90, seoScore := 85,
    bestPracticesScore := 80 }

def cx6t : TechnicalAnalysis :=
  { hasHttps := true, loadTime := 1500, hasMetaDescription := true,
    hasMetaKeywords := false, hasOpenGraph := true, hasTwitterCard := false,
    hasFavicon := true, hasCanonical := true, hasViewportMeta := true,
    hasCharsetMeta := true, hasLanguageAttr := true }

def cx6dns : DnsAnalysis :=
  { hasMxRecords := true, hasSpfRecord := true, hasDmarcRecord := false }

def cx6sec : SecurityAnalysis := { securityScore := 70 }

def cx6seo : SeoAnalysis :=
  { titleScore := 100, descriptionScore := 75, headingStructureScore := 70,
    imageOptimizationScore := 80, hasStructuredData := true, hasSitemap := true,
    hasRobotsTxt := true, hasCanonical := true, estimatedPageCount := 120 }

def cx6c : ContentAnalysis :=
  { wordCount := 1200, contentDepthScore := 80, readabilityScore := 75,
    hasContactInfo := true, hasPrivacyPolicy := true, hasTerms := false,
    hasAboutPage := true, uniqueContentIndicators := 3 }

def cx6soc : SocialAnalysis := { socialLinksCount := 4, socialScore := 76 }

def cx6m : MonetizationAnalysis :=
  { hasAds := true, adNetworks := ["Google AdSense"], hasAffiliate := false,
    hasEcommerce := false, hasSubscription := true, hasDonations := false,
    hasLeadGen := false, monetizationMethods := ["Advertising", "Subscription/SaaS"],
    revenueModel := .ecommerce, estimatedMonthlyRevenue := ⟨0, 0, 0⟩ }

/-- Witness for C6 at a concrete valid input. -/
theorem scores_C6_bounded_witness :
    ValidScoreInputs cx6d (some cx6p) cx6sec cx6seo cx6c cx6soc
      ∧ (let s := calculateScores cx6d (some cx6p) cx6t cx6dns cx6sec cx6seo cx6c cx6soc cx6m
        (0 ≤ s.domain ∧ s.domain ≤ 100)
          ∧ (0 ≤ s.performance ∧ s.performance ≤ 100)
          ∧ (0 ≤ s.technical ∧ s.technical ≤ 100)
          ∧ (0 ≤ s.security ∧ s.security ≤ 100)
          ∧ (0 ≤ s.seo ∧ s.seo ≤ 100)
          ∧ (0 ≤ s.content ∧ s.content ≤ 100)
          ∧ (0 ≤ s.social ∧ s.social ≤ 100)
          ∧ (0 ≤ s.monetization ∧ s.monetization ≤ 100)
          ∧ (0 ≤ s.overall ∧ s.overall ≤ 100)) := by
  have hv : ValidScoreInputs cx6d (some cx6p) cx6sec cx6seo cx6c cx6soc := by
    refine ⟨by norm_num [cx6d], ?_, by norm_num [cx6sec], by norm_num [cx6seo],
      by norm_num [cx6seo], by norm_num [cx6seo], by norm_num [cx6seo],
      by norm_num [cx6c], by norm_num [cx6c], by norm_num [cx6soc]⟩
    intro pf h
    rw [Option.some_inj] at h
    subst h
    norm_num [cx6p]
  exact ⟨hv, scores_C6_bounded cx6d (some cx6p) cx6t cx6dns cx6sec cx6seo cx6c cx6soc cx6m hv⟩

-- ============================================
-- CLAIM C9: monotonicity in domain age
-- ============================================

lemma domainAgeBonus_mono {a b : ℚ} (h : a ≤ b) :
    (if 5 ≤ a then (10:ℚ) else if 2 ≤ a then 5 else 0)
      ≤ (if 5 ≤ b then 10 else if 2 ≤ b then 5 else 0) := by
  split_ifs <;> linarith

lemma ageScore_mono {a b : ℚ} (h : a ≤ b) : ageScore a ≤ ageScore b := by
  unfold ageScore
  split_ifs <;> linarith

lemma newDomainPenalty_mono {a b : ℚ} (h : a ≤ b) :
    newDomainPenalty a ≤ newDomainPenalty b := by
  unfold newDomainPenalty
  split_ifs <;> linarith

lemma domainScoreRaw_age_mono (d : DomainAnalysis) {a b : ℚ} (h : a ≤ b) :
    domainScoreRaw { d with ageYears := a } ≤ domainScoreRaw { d with ageYears := b } := by
  unfold domainScoreRaw
  dsimp only
  have := domainAgeBonus_mono h
  linarith

/-- Claim C9: with every other fact held fixed, increasing the domain age in
years never decreases the domain category score of `calculateScores` nor the
accumulated traffic score of `estimateTraffic`. -/
theorem monotone_C9_age (d : DomainAnalysis) (p : Option PerformanceAnalysis)
    (t : TechnicalAnalysis) (dns : DnsAnalysis) (sec : SecurityAnalysis)
    (seo : SeoAnalysis) (c : ContentAnalysis) (soc : SocialAnalysis)
    (m : MonetizationAnalysis) (i : TrafficInput) (a b : ℚ) (h : a ≤ b) :
    (calculateScores { d with ageYears := a } p t dns sec seo c soc m).domain
        ≤ (calculateScores { d with ageYears := b } p t dns sec seo c soc m).domain
      ∧ trafficScore { i with domain := { i.domain with ageYears := a } }
        ≤ trafficScore { i with domain := { i.domain with ageYears := b } } := by
  constructor
  · exact clampRound_mono (domainScoreRaw_age_mono d h)
  · unfold trafficScore
    dsimp only
    have h1 := ageScore_mono h
    have h2 := newDomainPenalty_mono h
    linarith

def cx9i : TrafficInput :=
  { domain := cx6d, performance := some cx6p, seo := cx6seo, content := cx6c,
    social := cx6soc, technology :=
      { hasGoogleAnalytics := true, hasGoogleTagManager := false,
        ecommerce := none, cdn := none },
    trancoRank := none, socialFollowers := none }

/-- Witness for C9 at ages 1 and 7. -/
theorem monotone_C9_age_witness :
    (1:ℚ) ≤ 7
      ∧ ((calculateScores { cx6d with ageYears := 1 } (some cx6p) cx6t cx6dns cx6sec cx6seo cx6c cx6soc cx6m).domain
            ≤ (calculateScores { cx6d with ageYears := 7 } (some cx6p) cx6t cx6dns cx6sec cx6seo cx6c cx6soc cx6m).domain
          ∧ trafficScore { cx9i with domain := { cx9i.domain with ageYears := 1 } }
            ≤ trafficScore { cx9i with domain := { cx9i.domain with ageYears := 7 } }) :=
  ⟨by norm_num,
   monotone_C9_age cx6d (some cx6p) cx6t cx6dns cx6sec cx6seo cx6c cx6soc cx6m cx9i 1 7 (by norm_num)⟩

-- ============================================
-- CLAIM C5: word filtering vs readability token counts
-- ============================================

def cx5text : List Char := "aa bb cc dd word word word word.".toList

/-- Claim C5 is false as stated: the readability sentence-ratio uses the same
length-filtered word list as content-depth counting, not all whitespace
tokens. On this text there are 8 whitespace tokens but only 4 of length
greater than 2 and one qualifying sentence, and the implementation computes
4 words per sentence where the claim predicts 8. -/
theorem content_C5_counterexample :
    wordCount cx5text = 4
      ∧ (specAllTokens cx5text).length = 8
      ∧ (contentSentences cx5text).length = 1
      ∧ avgWordsPerSentence cx5text = 4
      ∧ specAvgWordsPerSentence cx5text = 8
      ∧ avgWordsPerSentence cx5text ≠ specAvgWordsPerSentence cx5text := by
  have h1 : wordCount cx5text = 4 := by decide
  have h2 : (specAllTokens cx5text).length = 8 := by decide
  have h3 : (contentSentences cx5text).length = 1 := by decide
  have h4 : avgWordsPerSentence cx5text = 4 := by
    unfold avgWordsPerSentence
    rw [h1, h3]
    norm_num
  have h5 : specAvgWordsPerSentence cx5text = 8 := by
    unfold specAvgWordsPerSentence
    rw [h2, h3]
    norm_num
  refine ⟨h1, h2, h3, h4, h5, ?_⟩
  rw [h4, h5]
  norm_num

/-- Claim C5 (amended): the word count used for content-depth scoring counts
only whitespace-delimited tokens of length greater than 2 (the text input
being the page text after stripping script/style/nav/header/footer content),
and the readability sentence-ratio uses that same filtered word count — not
all whitespace tokens — divided by the number of sentences whose trimmed
length exceeds 10. -/
theorem content_C5_wordfilter (text : List Char)
    (hs : (contentSentences text).length ≠ 0) :
    wordCount text
        = ((splitRuns isJsWhitespace text).filter (fun w => 2 < w.length)).length
      ∧ avgWordsPerSentence text
        = (wordCount text : ℚ) / ((contentSentences text).length : ℚ) := by
  refine ⟨rfl, ?_⟩
  unfold avgWordsPerSentence
  rw [if_pos (Nat.pos_of_ne_zero hs)]

/-- Witness for the amended C5 at the concrete text. -/
theorem content_C5_wordfilter_witness :
    (contentSentences cx5text).length ≠ 0
      ∧ (wordCount cx5text
          = ((splitRuns isJsWhitespace cx5text).filter (fun w => 2 < w.length)).length
        ∧ avgWordsPerSentence cx5text
          = (wordCount cx5text : ℚ) / ((contentSentences cx5text).length : ℚ)) :=
  ⟨by decide, content_C5_wordfilter cx5text (by decide)⟩

-- ============================================
-- CLAIM C1: the unranked exponential visitor curve
-- ============================================

lemma estimatedMonthlyVisitors_unranked (i : TrafficInput)
    (h : rankedRank i.trancoRank = none) :
    estimatedMonthlyVisitors i
      = jsRound (baseVisitors (normalizedTrafficScore i)
          * ((min 10 (megaSiteMultiplier i) : ℚ) : ℝ)) := by
  unfold estimatedMonthlyVisitors
  rw [h]

lemma baseVisitors_zero : baseVisitors 0 = 100 := by
  unfold baseVisitors
  rw [show (((0:ℚ)):ℝ) / 100 * 3.7 = 0 by push_cast; ring, Real.rpow_zero]
  norm_num

lemma baseVisitors_150_bounds :
    (30000000:ℝ) < baseVisitors 150 ∧ baseVisitors 150 < 40000000 := by
  unfold baseVisitors
  rw [show (((150:ℚ)):ℝ) / 100 * 3.7 = ((111:ℕ):ℝ) / ((20:ℕ):ℝ) by push_cast; norm_num]
  constructor
  · have h := lt_rpow_ratio_of_pow_lt (a := (10:ℝ)) (b := 300000) (p := 111) (q := 20)
      (by norm_num) (by norm_num) (by norm_num)
    linarith
  · have h := rpow_ratio_lt_of_pow_lt (a := (10:ℝ)) (b := 400000) (p := 111) (q := 20)
      (by norm_num) (by norm_num) (by norm_num) (by norm_num)
    linarith

lemma baseVisitors_100_bounds :
    (400000:ℝ) < baseVisitors 100 ∧ baseVisitors 100 < 600000 := by
  unfold baseVisitors
  rw [show (((100:ℚ)):ℝ) / 100 * 3.7 = ((37:ℕ):ℝ) / ((10:ℕ):ℝ) by push_cast; norm_num]
  constructor
  · have h := lt_rpow_ratio_of_pow_lt (a := (10:ℝ)) (b := 4000) (p := 37) (q := 10)
      (by norm_num) (by norm_num) (by norm_num)
    linarith
  · have h := rpow_ratio_lt_of_pow_lt (a := (10:ℝ)) (b := 6000) (p := 37) (q := 10)
      (by norm_num) (by norm_num) (by norm_num) (by norm_num)
    linarith

def cx1dom : DomainAnalysis :=
  { tld := ".com", tldScore := 100, length := 7, hasNumbers := false,
    hasHyphens := false, isKeywordRich := false, keywordsFound := [],
    ageYears := 5, archiveSnapshots := 150, hasSignificantHistory := false }

def cx1perf : PerformanceAnalysis :=
  { performanceScore := 85, accessibilityScore := 90, seoScore := 95,
    bestPracticesScore := 80 }

def cx1seo : SeoAnalysis :=
  { titleScore := 100, descriptionScore := 100, headingStructureScore := 100,
    imageOptimizationScore := 100, hasStructuredData := true, hasSitemap := true,
    hasRobotsTxt := true, hasCanonical := true, estimatedPageCount := 500 }

def cx1content : ContentAnalysis :=
  { wordCount := 6000, contentDepthScore := 100, readabilityScore := 80,
    hasContactInfo := true, hasPrivacyPolicy := true, hasTerms := true,
    hasAboutPage := true, uniqueContentIndicators := 3 }

def cx1tech : TechnologyAnalysis :=
  { hasGoogleAnalytics := true, hasGoogleTagManager := false,
    ecommerce := some "Shopify", cdn := some "Cloudflare" }

def cx1 : TrafficInput :=
  { domain := cx1dom, performance := some cx1perf, seo := cx1seo,
    content := cx1content, social := { socialLinksCount := 5, socialScore := 70 },
    technology := cx1tech, trancoRank := none,
    socialFollowers := some { totalFollowers := 1000 } }

lemma cx1_trafficScore : trafficScore cx1 = 152 := by
  unfold trafficScore
  norm_num [cx1, cx1dom, cx1perf, cx1seo, cx1content, cx1tech,
    rankScore, followerScore, ageScore, archiveScore, pagesScore,
    perfSeoScore, perfPerfScore, contentDepthContrib, socialPresenceContrib,
    analyticsContrib, ecommerceContrib, cdnContrib, newDomainPenalty,
    structuredDataPenalty, rankedRank, strTruthy,
    show ¬"Shopify" = "" from by decide, show ¬"Cloudflare" = "" from by decide]

lemma cx1_mega : megaSiteMultiplier cx1 = 6/5 := by
  unfold megaSiteMultiplier
  norm_num [cx1, cx1dom, cx1seo, cx1tech, rankMult, followerMult, ageMult,
    archiveMult, pagesMult, cdnMult, rankedRank, strTruthy,
    show ¬"Cloudflare" = "" from by decide]

/-- Claim C1 is false as stated: on a concrete unranked input whose clamped
traffic score is exactly 150 and whose capped multiplier is 1.2, the
implementation estimates more than 10,000,000 monthly visitors — the claimed
anchor of approximately 500,000 visitors at a clamped score of 150 is off
even before (and after) the at-most-10x multiplier. -/
theorem traffic_C1_counterexample :
    rankedRank cx1.trancoRank = none
      ∧ normalizedTrafficScore cx1 = 150
      ∧ min 10 (megaSiteMultiplier cx1) = 6/5
      ∧ 10000000 < (estimateTraffic cx1).estimatedMonthlyVisitors := by
  have hnone : rankedRank cx1.trancoRank = none := rfl
  have hsc : normalizedTrafficScore cx1 = 150 := by
    unfold normalizedTrafficScore
    rw [cx1_trafficScore]
    norm_num
  have hm : min 10 (megaSiteMultiplier cx1) = 6/5 := by
    rw [cx1_mega]
    norm_num
  refine ⟨hnone, hsc, hm, ?_⟩
  have hv : (estimateTraffic cx1).estimatedMonthlyVisitors
      = jsRound (baseVisitors 150 * ((6/5 : ℚ) : ℝ)) := by
    show estimatedMonthlyVisitors cx1 = _
    rw [estimatedMonthlyVisitors_unranked cx1 hnone, hsc, hm]
  rw [hv]
  have hb := baseVisitors_150_bounds.1
  unfold jsRound
  have h1 : ((10000001:ℤ):ℝ) ≤ baseVisitors 150 * ((6/5 : ℚ) : ℝ) + 1/2 := by
    have hc : ((6/5 : ℚ) : ℝ) = 6/5 := by norm_num
    rw [hc]
    push_cast
    nlinarith
  have h2 := Int.le_floor.mpr h1
  omega

/-- Claim C1 (amended): with no rank known, the visitor estimate clamps the
accumulated `trafficScore` to [0,150], maps it through the exponential curve
`100 * 10 ^ ((score/100) * 3.7)` and multiplies by the `megaSiteMultiplier`
capped at 10x; on this curve a clamped score of 0 yields exactly 100 monthly
visitors, a clamped score of 100 yields approximately 500,000 (between
400,000 and 600,000), and a clamped score of 150 yields approximately
35,000,000 (between 30,000,000 and 40,000,000) — not approximately 500,000. -/
theorem traffic_C1_curve (i : TrafficInput) (h : rankedRank i.trancoRank = none) :
    (estimateTraffic i).estimatedMonthlyVisitors
        = jsRound (baseVisitors (normalizedTrafficScore i)
            * ((min 10 (megaSiteMultiplier i) : ℚ) : ℝ))
      ∧ normalizedTrafficScore i = max 0 (min 150 (trafficScore i))
      ∧ baseVisitors 0 = 100
      ∧ ((30000000:ℝ) < baseVisitors 150 ∧ baseVisitors 150 < 40000000)
      ∧ ((400000:ℝ) < baseVisitors 100 ∧ baseVisitors 100 < 600000) :=
  ⟨estimatedMonthlyVisitors_unranked i h, rfl, baseVisitors_zero,
   baseVisitors_150_bounds, baseVisitors_100_bounds⟩

/-- Witness for the amended C1 at the concrete unranked input. -/
theorem traffic_C1_curve_witness :
    rankedRank cx1.trancoRank = none
      ∧ ((estimateTraffic cx1).estimatedMonthlyVisitors
            = jsRound (baseVisitors (normalizedTrafficScore cx1)
                * ((min 10 (megaSiteMultiplier cx1) : ℚ) : ℝ))
          ∧ normalizedTrafficScore cx1 = max 0 (min 150 (trafficScore cx1))
          ∧ baseVisitors 0 = 100
          ∧ ((30000000:ℝ) < baseVisitors 150 ∧ baseVisitors 150 < 40000000)
          ∧ ((400000:ℝ) < baseVisitors 100 ∧ baseVisitors 100 < 600000)) :=
  ⟨rfl, traffic_C1_curve cx1 rfl⟩

-- ============================================
-- CLAIM C4: rank 50 forces very-high tier and >10M visitors
-- ============================================

lemma one_le_followerMult (sf : Option SocialFollowersData) : 1 ≤ followerMult sf := by
  cases sf with
  | none => norm_num [followerMult]
  | some s =>
    simp only [followerMult]
    split_ifs <;> norm_num

lemma one_le_ageMult (a : ℚ) : 1 ≤ ageMult a := by
  unfold ageMult
  split_ifs <;> norm_num

lemma one_le_archiveMult (n : ℕ) : 1 ≤ archiveMult n := by
  unfold archiveMult
  split_ifs <;> norm_num

lemma one_le_pagesMult (c : ℕ) : 1 ≤ pagesMult c := by
  unfold pagesMult
  split_ifs <;> norm_num

lemma one_le_cdnMult (t : TechnologyAnalysis) : 1 ≤ cdnMult t := by
  unfold cdnMult
  split_ifs <;> norm_num

lemma rankMult_of_top100 {tr : Option TrancoRankResult} {r : ℕ}
    (h : rankedRank tr = some r) (hr : r ≤ 100) : rankMult tr = 100 := by
  unfold rankMult
  rw [h]
  exact if_pos hr

lemma megaSiteMultiplier_ge_100 (i : TrafficInput) {r : ℕ}
    (h : rankedRank i.trancoRank = some r) (hr : r ≤ 100) :
    100 ≤ megaSiteMultiplier i := by
  have h1 := one_le_followerMult i.socialFollowers
  have h2 := one_le_ageMult i.domain.ageYears
  have h3 := one_le_archiveMult i.domain.archiveSnapshots
  have h4 := one_le_pagesMult i.seo.estimatedPageCount
  have h5 := one_le_cdnMult i.technology
  have hrest : 1 ≤ followerMult i.socialFollowers * ageMult i.domain.ageYears
      * archiveMult i.domain.archiveSnapshots * pagesMult i.seo.estimatedPageCount
      * cdnMult i.technology :=
    one_le_mulQ (one_le_mulQ (one_le_mulQ (one_le_mulQ h1 h2) h3) h4) h5
  calc (100:ℚ) = 100 * 1 := (mul_one 100).symm
    _ ≤ 100 * (followerMult i.socialFollowers * ageMult i.domain.ageYears
          * archiveMult i.domain.archiveSnapshots * pagesMult i.seo.estimatedPageCount
          * cdnMult i.technology) := by
        apply mul_le_mul_of_nonneg_left hrest
        norm_num
    _ = megaSiteMultiplier i := by
        unfold megaSiteMultiplier
        rw [rankMult_of_top100 h hr]
        ring

lemma qualityBoost_of_top100 (i : TrafficInput) {r : ℕ}
    (h : rankedRank i.trancoRank = some r) (hr : r ≤ 100) : qualityBoost i = 2 := by
  unfold qualityBoost
  have hm := megaSiteMultiplier_ge_100 i h hr
  rw [min_eq_left]
  linarith

lemma rankedBaseTraffic_50_lb : (9000000:ℝ) < rankedBaseTraffic 50 := by
  unfold rankedBaseTraffic
  have hL : Real.logb 10 (((50:ℕ)):ℝ) ≤ ((17:ℕ):ℝ) / ((10:ℕ):ℝ) := by
    rw [Real.logb_le_iff_le_rpow (by norm_num) (by push_cast; norm_num)]
    exact le_rpow_ratio_of_pow_le (by norm_num) (by norm_num) (by push_cast; norm_num)
  have he : ((697:ℕ):ℝ) / ((100:ℕ):ℝ) ≤ (8.5:ℝ) - Real.logb 10 (((50:ℕ)):ℝ) * 0.9 := by
    push_cast at hL ⊢
    nlinarith [hL]
  have h1 : (9000000:ℝ) < (10:ℝ) ^ (((697:ℕ):ℝ) / ((100:ℕ):ℝ)) :=
    lt_rpow_ratio_of_pow_lt (by norm_num) (by norm_num) (by norm_num)
  have h2 : (10:ℝ) ^ (((697:ℕ):ℝ) / ((100:ℕ):ℝ))
      ≤ (10:ℝ) ^ ((8.5:ℝ) - Real.logb 10 (((50:ℕ)):ℝ) * 0.9) :=
    (Real.rpow_le_rpow_left_iff (by norm_num)).mpr he
  linarith

/-- Claim C4: whenever the Tranco rank is 50 (top-100 bucket), whatever every
other input fact is, the ranked branch computes the visitors as
`round(10 ^ (8.5 - log10(50) * 0.9) * qualityBoost)` with the quality
multiplier bounded by (and here equal to) 2, the estimate exceeds 10,000,000
monthly visitors, and the traffic tier is very-high. -/
theorem traffic_C4_rank50 (i : TrafficInput) (h : rankedRank i.trancoRank = some 50) :
    (estimateTraffic i).estimatedMonthlyVisitors
        = jsRound (rankedBaseTraffic 50 * ((qualityBoost i : ℚ) : ℝ))
      ∧ qualityBoost i ≤ 2
      ∧ qualityBoost i = 2
      ∧ 10000000 < (estimateTraffic i).estimatedMonthlyVisitors
      ∧ (estimateTraffic i).trafficTier = .veryHigh := by
  have hform : (estimateTraffic i).estimatedMonthlyVisitors
      = jsRound (rankedBaseTraffic 50 * ((qualityBoost i : ℚ) : ℝ)) := by
    show estimatedMonthlyVisitors i = _
    unfold estimatedMonthlyVisitors
    rw [h]
  have hq : qualityBoost i = 2 := qualityBoost_of_top100 i h (by norm_num)
  have hv : 10000000 < (estimateTraffic i).estimatedMonthlyVisitors := by
    rw [hform, hq]
    have hb := rankedBaseTraffic_50_lb
    unfold jsRound
    have h1 : ((10000001:ℤ):ℝ) ≤ rankedBaseTraffic 50 * ((2 : ℚ) : ℝ) + 1/2 := by
      have hc : (((2:ℚ)) : ℝ) = 2 := by norm_num
      rw [hc]
      push_cast
      nlinarith
    have h2 := Int.le_floor.mpr h1
    omega
  refine ⟨hform, ?_, hq, hv, ?_⟩
  · exact min_le_left 2 _
  · show visitorTier (estimatedMonthlyVisitors i) = .veryHigh
    have : 10000000 ≤ estimatedMonthlyVisitors i := le_of_lt hv
    unfold visitorTier
    rw [if_pos this]

def cx4 : TrafficInput :=
  { domain := cx1dom, performance := none, seo := cx1seo, content := cx1content,
    social := { socialLinksCount := 2, socialScore := 28 },
    technology := cx1tech, trancoRank := some { isRanked := true, rank := some 50 },
    socialFollowers := none }

/-- Witness for C4 at a concrete input ranked #50. -/
theorem traffic_C4_rank50_witness :
    rankedRank cx4.trancoRank = some 50
      ∧ ((estimateTraffic cx4).estimatedMonthlyVisitors
            = jsRound (rankedBaseTraffic 50 * ((qualityBoost cx4 : ℚ) : ℝ))
          ∧ qualityBoost cx4 ≤ 2
          ∧ qualityBoost cx4 = 2
          ∧ 10000000 < (estimateTraffic cx4).estimatedMonthlyVisitors
          ∧ (estimateTraffic cx4).trafficTier = .veryHigh) :=
  ⟨by decide, traffic_C4_rank50 cx4 (by decide)⟩
